import Mathlib

/-!
Shallow embedding of the spacetraveling blog front-end
(repository GH-Marc/Ignite-desafio03).

The embedding covers the logic of the three source files that carry the
behaviour under specification:

* src/pages/index.tsx — the post-list paginator (component `Home` with its
  `handleLoadPosts` handler and the conditional load-more button);
* src/pages/post/[slug].tsx — the post-detail assembler (`getStaticProps`
  with its adjacent-post queries, and the `Post` component with its
  `estimatedReadTime` computation and fallback branch);
* the Utterances comments component (`UtterancesComments` with
  `addUtterancesScript`).

External collaborators (the Prismic content client, the prismic-dom
RichText helper and the JavaScript string primitives) are modelled at the
level of their documented interface contracts, as the code observes them.
JavaScript runtime failures (a `reduce` over an empty array without an
initial value, a property access on `undefined`) are modelled with
`Option`/`Except`.
-/

/-- One rich-text fragment of a section body, as copied by the code
(fields `spans`, `text`, `type`); `spans` is opaque to the logic and kept
as an opaque list. -/
structure RichTextFragment where
  spans : List String
  text : String
  type : String
  deriving DecidableEq

/-- One content section of a post document: a heading and a rich-text
body (src/pages/post/[slug].tsx, interface `Post.data.content`). -/
structure ContentSection where
  heading : String
  body : List RichTextFragment
  deriving DecidableEq

/-- Banner field of a post document (`data.banner`). -/
structure Banner where
  url : String
  deriving DecidableEq

/-- The `data` payload of a raw Prismic post document, holding every field
the two pages read (`title`, `subtitle`, `banner.url`, `author`,
`content`). -/
structure PostDocData where
  title : String
  subtitle : String
  banner : Banner
  author : String
  content : List ContentSection
  deriving DecidableEq

/-- A raw document as returned by the external Prismic content client:
an internal `id` (used as the `after` cursor), a document `type`, the
`uid` (slug), the two publication timestamps (ISO-formatted strings, so
chronological order is their lexicographic order) and the data payload. -/
structure RawDoc where
  id : String
  type : String
  uid : Option String
  first_publication_date : Option String
  last_publication_date : Option String
  data : PostDocData
  deriving DecidableEq

/-- Summary fields kept by the home page for each post
(src/pages/index.tsx, interface `Post.data`). -/
structure PostSummaryData where
  title : String
  subtitle : String
  author : String
  deriving DecidableEq

/-- A post summary as held in the home-page list
(src/pages/index.tsx, interface `Post`). -/
structure Post where
  uid : Option String
  first_publication_date : Option String
  data : PostSummaryData
  deriving DecidableEq

/-- One page of results from the content client
(src/pages/index.tsx, interface `PostPagination`): the continuation
cursor `next_page` (null when no further page exists) and the raw
results. -/
structure PostPagination where
  next_page : Option String
  results : List RawDoc
  deriving DecidableEq

/-- The per-result mapping applied inside `handleLoadPosts`
(src/pages/index.tsx lines 47-57): keep `uid`,
`first_publication_date` and the `title`/`subtitle`/`author` data
fields. -/
def mapPost (post : RawDoc) : Post :=
  { uid := post.uid
    first_publication_date := post.first_publication_date
    data :=
      { title := post.data.title
        subtitle := post.data.subtitle
        author := post.data.author } }

/-- The component state of `Home` (src/pages/index.tsx lines 38-39): the
`posts` list and the `loadMorePosts` cursor (the `next_page` value of the
last page received). -/
structure PaginatorState where
  posts : List Post
  loadMorePosts : Option String
  deriving DecidableEq

/-- Outcome of the one network fetch issued by `handleLoadPosts`: either
a fetched page or a network/client failure (a rejected promise). -/
inductive FetchOutcome
  | success (page : PostPagination)
  | failure
  deriving DecidableEq

/-- `handleLoadPosts` (src/pages/index.tsx lines 41-60) as a state
transformer over the fetch outcome. On success the handler stores the
new cursor and appends the mapped results to the previous `posts`
closure value; on failure the promise chain has no rejection handler, so
the rejection propagates (`Except.error`) and no state setter runs. -/
def handleLoadPosts (s : PaginatorState) (outcome : FetchOutcome) :
    Except Unit PaginatorState :=
  match outcome with
  | FetchOutcome.failure => Except.error ()
  | FetchOutcome.success data =>
    Except.ok
      { loadMorePosts := data.next_page
        posts := s.posts ++ data.results.map mapPost }

/-- The component state once the `handleLoadPosts` promise settles: on a
rejection no `setPosts`/`setLoadMorePosts` call ran, so the state is the
prior one. -/
def stateAfter (s : PaginatorState) (outcome : FetchOutcome) : PaginatorState :=
  match handleLoadPosts s outcome with
  | Except.error _ => s
  | Except.ok s2 => s2

/-- The user-visible load-more operation of `Home`. The load-more button
is rendered only while `loadMorePosts` is non-null
(src/pages/index.tsx lines 97-101), so with a null cursor the handler
cannot run and no fetch is issued; otherwise exactly one fetch is issued
and the state settles through `stateAfter`. The second component counts
the network calls issued by the invocation. -/
def loadMoreEvent (s : PaginatorState) (outcome : FetchOutcome) :
    PaginatorState × Nat :=
  match s.loadMorePosts with
  | none => (s, 0)
  | some _ => (stateAfter s outcome, 1)

/-- JavaScript `String.prototype.split` with a single-character
separator, by structural recursion over the character list. Splitting
the empty string yields one empty piece, exactly as in JavaScript. -/
def splitChar (sep : Char) : List Char → List (List Char)
  | [] => [[]]
  | c :: cs =>
    if c = sep then [] :: splitChar sep cs
    else
      match splitChar sep cs with
      | [] => [[c]]
      | w :: ws => (c :: w) :: ws

/-- Length of `s.split(" ")` as computed by the code: the number of
pieces obtained by splitting on a single space. -/
def wordCount (s : String) : Nat := (splitChar ' ' s.data).length

/-- `RichText.asText` of the external prismic-dom helper: the `text` of
each body fragment, joined by a single space (its documented default
join string). -/
def asText (body : List RichTextFragment) : String :=
  String.intercalate " " (body.map (fun b => b.text))

/-- The word total contributed by one section inside `estimatedReadTime`
(src/pages/post/[slug].tsx lines 58-64): heading words plus words of the
plain-text rendering of the body. -/
def sectionWords (content : ContentSection) : Nat :=
  wordCount content.heading + wordCount (asText content.body)

/-- `estimatedReadTime` (src/pages/post/[slug].tsx lines 56-68): map
each section to its word total, `reduce` WITHOUT an initial value (on an
empty array this throws a TypeError, modelled as `none`), divide by the
200 words-per-minute constant and take `Math.ceil`. -/
def estimatedReadTime (content : List ContentSection) : Option Nat :=
  match content.map sectionWords with
  | [] => none
  | w :: ws => some ((ws.foldl (fun acc value => acc + value) w + 199) / 200)

/-- Total word count of a document, summed over all sections. -/
def totalWords (content : List ContentSection) : Nat :=
  (content.map sectionWords).sum

/-- Adjacent-post record of the assembled post (`prevPost`/`nextPost`
in src/pages/post/[slug].tsx): title and slug, both null when the
corresponding auxiliary query returned no result. -/
structure AdjacentPost where
  title : Option String
  slug : Option String
  deriving DecidableEq

/-- The `post` prop assembled by `getStaticProps` of
src/pages/post/[slug].tsx (lines 220-256). -/
structure PostView where
  uid : Option String
  first_publication_date : Option String
  last_publication_date : Option String
  prevPost : AdjacentPost
  nextPost : AdjacentPost
  data : PostDocData
  deriving DecidableEq

/-- Result of `getStaticProps` for the post page: either a redirect
outcome or the props for a rendered page. -/
inductive StaticPropsResult
  | redirect (destination : String) (permanent : Bool)
  | props (post : PostView) (preview : Bool)
  deriving DecidableEq

/-- Boolean lexicographic comparison of character lists, used to model
chronological order of ISO timestamp strings. -/
def strLeChars : List Char → List Char → Bool
  | [], _ => true
  | _ :: _, [] => false
  | a :: as, b :: bs =>
    if a = b then strLeChars as bs else decide (a.toNat < b.toNat)

/-- Boolean lexicographic comparison of strings. -/
def strLe (a b : String) : Bool := strLeChars a.data b.data

/-- Sort key used by the `orderings` option of the auxiliary queries:
the first publication date of the document. -/
def dateKey (d : RawDoc) : String := d.first_publication_date.getD ""

/-- Insertion into a list sorted by the Boolean relation `le`. -/
def insertLe (le : RawDoc → RawDoc → Bool) (d : RawDoc) :
    List RawDoc → List RawDoc
  | [] => [d]
  | e :: es => if le d e then d :: e :: es else e :: insertLe le d es

/-- Insertion sort by the Boolean relation `le`. -/
def sortLe (le : RawDoc → RawDoc → Bool) : List RawDoc → List RawDoc
  | [] => []
  | e :: es => insertLe le e (sortLe le es)

/-- Model of the external Prismic `query` call as issued twice by
`getStaticProps` (src/pages/post/[slug].tsx lines 200-218): documents of
type `posts`, ordered by `document.first_publication_date` (descending
when `desc` is set), with the `after` cursor and `pageSize: 1`. Per the
Prismic REST contract, `after` removes every document up to and
including the referenced one from the ordered result list, so the call
returns at most one document, the one immediately following `afterId`
in the requested ordering. -/
def queryAfterOne (store : List RawDoc) (desc : Bool) (afterId : String) :
    List RawDoc :=
  let docs := store.filter (fun d => d.type == "posts")
  let sorted :=
    sortLe (fun a b =>
      if desc then strLe (dateKey b) (dateKey a) else strLe (dateKey a) (dateKey b)) docs
  ((sorted.dropWhile (fun d => d.id != afterId)).drop 1).take 1

/-- Model of the external Prismic `getByUID` call: the document of the
given type carrying the given uid (slug), or none when no such document
exists. -/
def getByUID (store : List RawDoc) (docType : String) (slug : String) :
    Option RawDoc :=
  (store.filter (fun d => d.type == docType)).find? (fun d => d.uid == some slug)

/-- `getStaticProps` of src/pages/post/[slug].tsx (lines 179-264): fetch
the document by slug; when absent, redirect to the home route; otherwise
issue the two adjacent-post queries (the ascending one feeding
`prevPost`, the descending one feeding `nextPost`, each field null when
its query returned no result) and assemble the post props. -/
def getStaticProps (store : List RawDoc) (slug : String) (preview : Bool) :
    StaticPropsResult :=
  match getByUID store "posts" slug with
  | none => StaticPropsResult.redirect "/" false
  | some response =>
    let prevPost := queryAfterOne store false response.id
    let nextPost := queryAfterOne store true response.id
    StaticPropsResult.props
      { uid := response.uid
        first_publication_date := response.first_publication_date
        last_publication_date := response.last_publication_date
        prevPost :=
          { title := prevPost.head?.map (fun r => r.data.title)
            slug := prevPost.head?.bind (fun r => r.uid) }
        nextPost :=
          { title := nextPost.head?.map (fun r => r.data.title)
            slug := nextPost.head?.bind (fun r => r.uid) }
        data :=
          { title := response.data.title
            subtitle := response.data.subtitle
            banner := { url := response.data.banner.url }
            author := response.data.author
            content := response.data.content.map (fun content =>
              { heading := content.heading
                body := content.body.map (fun body =>
                  { spans := body.spans
                    text := body.text
                    type := body.type }) }) } }
      preview

/-- Projection of a props result; none on a redirect. -/
def propsPost : StaticPropsResult → Option PostView
  | StaticPropsResult.props p _ => some p
  | StaticPropsResult.redirect _ _ => none

/-- The `fallback` flag returned by `getStaticPaths`
(src/pages/post/[slug].tsx line 175): paths not pre-rendered at build
time are produced on demand. -/
def getStaticPathsFallback : Bool := true

/-- What the `Post` component renders. -/
inductive RenderOutput
  | loading
  | article (title : String) (readTime : Nat)
  deriving DecidableEq

/-- The `Post` component (src/pages/post/[slug].tsx lines 53-158) in
source order: `estimatedReadTime` is computed from `post.data.content`
BEFORE the `router.isFallback` check, so a fallback render — which
receives empty props, i.e. no `post` — dereferences `undefined` and
throws (`Except.error`), as does the empty-section reduce; only then
does the fallback branch return the loading placeholder. -/
def renderPost (isFallback : Bool) (post : Option PostView) :
    Except Unit RenderOutput :=
  match post with
  | none => Except.error ()
  | some p =>
    match estimatedReadTime p.data.content with
    | none => Except.error ()
    | some t =>
      if isFallback then Except.ok RenderOutput.loading
      else Except.ok (RenderOutput.article p.data.title t)

/-- A mounted Utterances script element with the attributes set by
`addUtterancesScript` (Utterances component lines 3-30). -/
structure UtterancesScript where
  src : String
  crossorigin : String
  async : String
  repo : String
  label : Option String
  issueNumber : Option String
  issueTerm : Option String
  theme : String
  deriving DecidableEq

/-- `addUtterancesScript` (Utterances component lines 3-30): append to
the parent element one script element configured with the fixed source,
the repository, an optional label (only when non-empty) and either an
issue-number or an issue-term attribute. -/
def addUtterancesScript (parentElement : List UtterancesScript)
    (repo label issueTerm theme : String) (isIssueNumber : Bool) :
    List UtterancesScript :=
  parentElement ++
    [{ src := "https://utteranc.es/client.js"
       crossorigin := "anonymous"
       async := "true"
       repo := repo
       label := if label == "" then none else some label
       issueNumber := if isIssueNumber then some issueTerm else none
       issueTerm := if isIssueNumber then none else some issueTerm
       theme := theme }]

/-- Removal of the first element of class `utterances` when one is
present (Utterances component lines 45-49), over the list of mounted
embed instances in document order. -/
def removeMountedInstance : List UtterancesScript → List UtterancesScript
  | [] => []
  | _ :: rest => rest

/-- One pass of the `useEffect` body of `UtterancesComments` (lines
38-52) over the mounted embed instances of the container: remove the
previously mounted instance, then append one freshly configured script
with the fixed repository, label, theme and the pathname issue-matching
strategy. -/
def mountComments (instances : List UtterancesScript) : List UtterancesScript :=
  addUtterancesScript (removeMountedInstance instances)
    "GH-Marc/ignite-utterances" "blog-comment" "pathname" "github-dark" false

/-- C1: a successful `loadMore` call yields exactly the previous items
followed by the mapped items of the fetched page, in that order, with no
de-duplication and no reordering; and two successive successful
`loadMore` calls starting from an empty list yield the concatenation of
the two mapped pages, P1 then P2. -/
theorem loadMore_appends_in_order (s : PaginatorState)
    (page p1 p2 : PostPagination) (c : Option String) :
    (stateAfter s (FetchOutcome.success page)).posts
      = s.posts ++ page.results.map mapPost ∧
    (stateAfter (stateAfter { posts := [], loadMorePosts := c }
        (FetchOutcome.success p1)) (FetchOutcome.success p2)).posts
      = p1.results.map mapPost ++ p2.results.map mapPost := by
  refine ⟨rfl, ?_⟩
  simp [stateAfter, handleLoadPosts]

/-- C4: on a state whose cursor is null the load-more operation issues
no network call and leaves the state unchanged, whatever the network
would have answered. -/
theorem loadMore_noop_on_null_cursor (s : PaginatorState) (o : FetchOutcome)
    (h : s.loadMorePosts = none) : loadMoreEvent s o = (s, 0) := by
  unfold loadMoreEvent
  rw [h]

theorem loadMore_noop_on_null_cursor_witness :
    loadMoreEvent { posts := [], loadMorePosts := none } FetchOutcome.failure
      = ({ posts := [], loadMorePosts := none }, 0) :=
  loadMore_noop_on_null_cursor _ _ rfl

/-- C7: when the fetch issued by `loadMore` fails, the operation
propagates as an error, the settled state is the prior state unchanged,
and at most the one original network call was issued (no retry). -/
theorem loadMore_failure_preserves_state (s : PaginatorState) :
    handleLoadPosts s FetchOutcome.failure = Except.error () ∧
    stateAfter s FetchOutcome.failure = s ∧
    (loadMoreEvent s FetchOutcome.failure).1 = s ∧
    (loadMoreEvent s FetchOutcome.failure).2 ≤ 1 := by
  refine ⟨rfl, rfl, ?_, ?_⟩ <;>
    cases h : s.loadMorePosts <;>
      simp [loadMoreEvent, stateAfter, handleLoadPosts, h]

/-- Ceiling of a natural number divided by 200, expressed with natural
division. -/
theorem natCeil_div_200 (a : ℕ) : ⌈(a : ℚ) / 200⌉₊ = (a + 199) / 200 := by
  rcases Nat.eq_zero_or_pos a with h | h
  · subst h
    norm_num
  · rw [Nat.ceil_eq_iff (by omega)]
    constructor
    · rw [lt_div_iff₀ (show (0:ℚ) < 200 by norm_num)]
      have h1 : ((a + 199) / 200 - 1) * 200 < a := by omega
      exact_mod_cast h1
    · rw [div_le_iff₀ (show (0:ℚ) < 200 by norm_num)]
      have h2 : a ≤ ((a + 199) / 200) * 200 := by omega
      exact_mod_cast h2

/-- A left fold of addition equals the start value plus the list sum. -/
theorem foldl_add_eq_sum (w : Nat) (ws : List Nat) :
    ws.foldl (fun acc value => acc + value) w = w + ws.sum := by
  induction ws generalizing w with
  | nil => simp
  | cons x xs ih => simp [List.foldl, ih, Nat.add_assoc]

/-- C2: for every document with at least one content section, the
estimated reading time is the ceiling of the total word count — heading
words plus plain-text body words, summed over all sections — divided by
the 200 words-per-minute constant. -/
theorem estimatedReadTime_is_ceil (content : List ContentSection)
    (h : content ≠ []) :
    estimatedReadTime content = some ⌈(totalWords content : ℚ) / 200⌉₊ := by
  rw [natCeil_div_200]
  match content, h with
  | c :: cs, _ =>
    show some ((List.foldl _ (sectionWords c) (cs.map sectionWords) + 199) / 200)
      = some ((totalWords (c :: cs) + 199) / 200)
    rw [foldl_add_eq_sum]
    simp [totalWords]

theorem estimatedReadTime_is_ceil_witness :
    estimatedReadTime
      [{ heading := "A B C"
         body := [{ spans := [], text := "D E F G", type := "paragraph" }] }]
      = some 1 := by
  rw [estimatedReadTime_is_ceil _ (by simp), natCeil_div_200]
  rfl

/-- C5: on a document with zero content sections the reading-time
computation is the failure of the initial-value-less reduce over an
empty array (`none`), not a defined number of minutes. -/
theorem estimatedReadTime_empty_fails : estimatedReadTime [] = none := rfl

/-- C6: whenever the primary document fetch finds no document for the
requested slug, the page request resolves to the redirect outcome
targeting the home route, never to post props. -/
theorem getStaticProps_redirects_unknown_slug (store : List RawDoc)
    (slug : String) (preview : Bool)
    (h : getByUID store "posts" slug = none) :
    getStaticProps store slug preview = StaticPropsResult.redirect "/" false := by
  unfold getStaticProps
  rw [h]

theorem getStaticProps_redirects_unknown_slug_witness :
    getStaticProps [] "missing-slug" false
      = StaticPropsResult.redirect "/" false :=
  getStaticProps_redirects_unknown_slug [] "missing-slug" false rfl

/-- Earliest of three posts of type `posts`, published at date `a`. -/
def docX : RawDoc :=
  { id := "idX"
    type := "posts"
    uid := some "x"
    first_publication_date := some "a"
    last_publication_date := none
    data :=
      { title := "Post X"
        subtitle := "sX"
        banner := { url := "bX" }
        author := "aX"
        content := [] } }

/-- Middle of the three posts, published at date `b`. -/
def docY : RawDoc :=
  { id := "idY"
    type := "posts"
    uid := some "y"
    first_publication_date := some "b"
    last_publication_date := none
    data :=
      { title := "Post Y"
        subtitle := "sY"
        banner := { url := "bY" }
        author := "aY"
        content := [] } }

/-- Latest of the three posts, published at date `c`. -/
def docZ : RawDoc :=
  { id := "idZ"
    type := "posts"
    uid := some "z"
    first_publication_date := some "c"
    last_publication_date := none
    data :=
      { title := "Post Z"
        subtitle := "sZ"
        banner := { url := "bZ" }
        author := "aZ"
        content := [] } }

/-- A store of three posts with strictly ascending publish dates
X before Y before Z. -/
def storeXYZ : List RawDoc := [docX, docY, docZ]

/-- C3: evaluation of `getStaticProps` on three posts with strictly
ascending publish dates X before Y before Z. The ascending-ordered
`after` query feeding `prevPost` returns the document FOLLOWING the
current one in ascending date order, i.e. the chronologically NEXT
post, and symmetrically for `nextPost`: assembling Y yields
prevPost = Z and nextPost = X, assembling X yields prevPost = Y (not
null) and nextPost = null, and assembling Z yields prevPost = null and
nextPost = Y — the reverse of the claimed adjacency. -/
theorem getStaticProps_adjacency_swapped :
    (propsPost (getStaticProps storeXYZ "y" false)).map
        (fun p => (p.prevPost.slug, p.nextPost.slug))
      = some (some "z", some "x") ∧
    (propsPost (getStaticProps storeXYZ "x" false)).map
        (fun p => (p.prevPost.slug, p.nextPost.slug))
      = some (some "y", none) ∧
    (propsPost (getStaticProps storeXYZ "z" false)).map
        (fun p => (p.prevPost.slug, p.nextPost.slug))
      = some (none, some "y") := by
  refine ⟨?_, ?_, ?_⟩ <;> rfl

/-- C8: a fallback render — `getStaticPaths` declares `fallback: true`
and the on-demand render receives empty props, i.e. no `post` — fails
instead of showing the loading placeholder, because the component
computes `estimatedReadTime` from `post.data.content` before checking
`router.isFallback`. -/
theorem renderPost_fallback_fails :
    getStaticPathsFallback = true ∧ renderPost true none = Except.error () :=
  ⟨rfl, rfl⟩

/-- C9: in any sequence of mounts of the comments embed on the same,
initially empty container, after each mount exactly one embed instance
is present, and every mount converges to the same single freshly
configured instance. -/
theorem mountComments_single_instance (n : Nat) (h : 1 ≤ n) :
    (mountComments^[n] []).length = 1 ∧
    mountComments^[n] [] = mountComments [] := by
  induction n with
  | zero => exact absurd h (by omega)
  | succ k ih =>
    rcases Nat.eq_zero_or_pos k with hk | hk
    · subst hk
      exact ⟨rfl, rfl⟩
    · obtain ⟨hlen, heq⟩ := ih hk
      rw [Function.iterate_succ_apply', heq]
      exact ⟨rfl, rfl⟩

theorem mountComments_single_instance_witness :
    (mountComments^[2] []).length = 1 ∧
    mountComments^[2] [] = mountComments [] :=
  mountComments_single_instance 2 (by omega)

/-- C10: a section heading that is the empty string counts as one word,
as does a body whose plain-text rendering is empty, because splitting
the empty string on a single space yields one empty token; hence a
document with one section whose heading and rendered body are both
empty has a total word count of 2, not 0. -/
theorem emptyStrings_count_as_words (c : ContentSection)
    (hh : c.heading = "") (hb : asText c.body = "") :
    wordCount "" = 1 ∧ sectionWords c = 2 ∧ totalWords [c] = 2 := by
  have h2 : sectionWords c = 2 := by
    unfold sectionWords
    rw [hh, hb]
    rfl
  exact ⟨rfl, h2, by simp [totalWords, h2]⟩

theorem emptyStrings_count_as_words_witness :
    wordCount "" = 1 ∧
    sectionWords { heading := "", body := [] } = 2 ∧
    totalWords [{ heading := "", body := [] }] = 2 :=
  emptyStrings_count_as_words { heading := "", body := [] } rfl rfl
